import Mathlib

/-!
Verification of the Dream Team Analyzer core (src/myapp.py): the formation
layout table, the slot/coordinate resolver, the roster-analysis orchestration
(validation, prompt construction, LLM call handling), and the portrait-lookup
fallback behaviour.  Python dicts are embedded as association lists in
insertion order; external HTTP collaborators are embedded as oracle functions
returning `Except`, with the list of issued requests made explicit so that
call counts can be stated.
-/

namespace TeamAnalyzer

/-- A pitch coordinate: the CSS percentages `top` and `left` used for a
player marker (source keys `"top"` / `"left"`). -/
structure Coord where
  top : Nat
  left : Nat
  deriving DecidableEq, Repr

/-- The `FORMATIONS` table (myapp.py lines 24-37): each formation name maps to
an ordered list of (role short code, count) pairs. -/
def FORMATIONS : List (String × List (String × Nat)) :=
  [("4-3-3", [("GK", 1), ("DEF", 4), ("MID", 3), ("ATT", 3)]),
   ("4-4-2", [("GK", 1), ("DEF", 4), ("MID", 4), ("ATT", 2)]),
   ("3-5-2", [("GK", 1), ("DEF", 3), ("MID", 5), ("ATT", 2)]),
   ("3-4-3", [("GK", 1), ("DEF", 3), ("MID", 4), ("ATT", 3)])]

/-- `DEFAULT_IMAGE` constant (myapp.py line 39). -/
def DEFAULT_IMAGE : String := "https://cdn-icons-png.flaticon.com/512/3673/3673323.png"

/-- `get_player_positions` (myapp.py lines 143-207): builds the slot-to-coordinate
dict for a formation name, starting from the fixed goalkeeper entry and
appending the defensive, midfield and attacking lines selected by the
branch structure of the source.  All keys inserted are distinct, so the
`dict.update` calls are faithfully rendered as list appends. -/
def get_player_positions (formation_name : String) : List (String × Coord) :=
  let positions : List (String × Coord) := [("GK1", ⟨15, 50⟩)]
  let positions := positions ++
    (if formation_name = "4-3-3" ∨ formation_name = "4-4-2" then
      [("DEF1", ⟨30, 15⟩), ("DEF2", ⟨30, 35⟩), ("DEF3", ⟨30, 65⟩), ("DEF4", ⟨30, 85⟩)]
    else if formation_name = "3-5-2" ∨ formation_name = "3-4-3" then
      [("DEF1", ⟨30, 25⟩), ("DEF2", ⟨30, 50⟩), ("DEF3", ⟨30, 75⟩)]
    else [])
  let positions := positions ++
    (if formation_name = "4-3-3" then
      [("MID1", ⟨50, 25⟩), ("MID2", ⟨50, 50⟩), ("MID3", ⟨50, 75⟩)]
    else if formation_name = "4-4-2" then
      [("MID1", ⟨50, 10⟩), ("MID2", ⟨50, 40⟩), ("MID3", ⟨50, 60⟩), ("MID4", ⟨50, 90⟩)]
    else if formation_name = "3-5-2" then
      [("MID1", ⟨50, 10⟩), ("MID2", ⟨50, 30⟩), ("MID3", ⟨50, 50⟩),
       ("MID4", ⟨50, 70⟩), ("MID5", ⟨50, 90⟩)]
    else if formation_name = "3-4-3" then
      [("MID1", ⟨50, 20⟩), ("MID2", ⟨50, 40⟩), ("MID3", ⟨50, 60⟩), ("MID4", ⟨50, 80⟩)]
    else [])
  let positions := positions ++
    (if formation_name = "4-3-3" ∨ formation_name = "3-4-3" then
      [("ATT1", ⟨75, 20⟩), ("ATT2", ⟨75, 50⟩), ("ATT3", ⟨75, 80⟩)]
    else if formation_name = "4-4-2" ∨ formation_name = "3-5-2" then
      [("ATT1", ⟨75, 40⟩), ("ATT2", ⟨75, 60⟩)]
    else [])
  positions

/-- The slot keys implied by a formation row list:
`[f"{pos}{i + 1}" for pos, count in rows for i in range(count)]`
(myapp.py line 400). -/
def slot_names (rows : List (String × Nat)) : List String :=
  rows.flatMap (fun pc => (List.range pc.2).map (fun i => pc.1 ++ toString (i + 1)))

/-- Total count the formation requires:
`sum(count for _, count in formation_rows)` (myapp.py line 429). -/
def required_count (formation_rows : List (String × Nat)) : Nat :=
  (formation_rows.map (fun pc => pc.2)).sum

/-- Number of non-empty roster values:
`len([name for name in team.values() if name])` (myapp.py line 430).
Python truthiness on a string means "non-empty". -/
def filled_count (team : List (String × String)) : Nat :=
  (team.filter (fun pn => pn.2 ≠ "")).length

/-- Count of defenders declared by a formation row list. -/
def defender_count (rows : List (String × Nat)) : Nat :=
  ((rows.filter (fun pc => pc.1 = "DEF")).map (fun pc => pc.2)).sum

/-- The defensive-line entries of the resolved positions: those whose key
starts with the role code `DEF`. -/
def defensive_line (formation_name : String) : List (String × Coord) :=
  (get_player_positions formation_name).filter (fun e => e.1.data.take 3 = ("DEF").data)

/-- C3: for every formation in the fixed known set, the role-group counts sum
to 11, and `get_player_positions` returns exactly one coordinate for every
implied slot (its key list equals the implied slot list, in order), each with
`top` and `left` in [0, 100]. -/
theorem c3_formations_sum_and_full_layout :
    (FORMATIONS.all (fun fp =>
      ((fp.2.map (fun pc => pc.2)).sum = 11) &&
      ((get_player_positions fp.1).map (fun e => e.1) = slot_names fp.2) &&
      ((get_player_positions fp.1).all (fun e =>
        (e.2.top ≤ 100) && (e.2.left ≤ 100))))) = true := by decide

/-- C6: for every known formation, slot GK1 gets the fixed coordinate
(top 15, left 50), and every DEF slot has top 30, every MID slot top 50,
every ATT slot top 75. -/
theorem c6_vertical_bands :
    (FORMATIONS.all (fun fp =>
      ((("GK1", (⟨15, 50⟩ : Coord)) ∈ get_player_positions fp.1)) &&
      ((get_player_positions fp.1).all (fun e =>
        (!(e.1.data.take 3 = ("DEF").data) || (e.2.top = 30)) &&
        (!(e.1.data.take 3 = ("MID").data) || (e.2.top = 50)) &&
        (!(e.1.data.take 3 = ("ATT").data) || (e.2.top = 75)))))) = true := by decide

/-- C7: for every known formation, a 4-defender line uses the horizontal
offsets [15, 35, 65, 85] and a 3-defender line uses [25, 50, 75]. -/
theorem c7_defensive_spreads :
    (FORMATIONS.all (fun fp =>
      (!(defender_count fp.2 = 4) ||
        ((defensive_line fp.1).map (fun e => e.2.left) = [15, 35, 65, 85])) &&
      (!(defender_count fp.2 = 3) ||
        ((defensive_line fp.1).map (fun e => e.2.left) = [25, 50, 75])))) = true := by decide

/-- C8: the layout resolver is a pure function of the formation name: two
calls with the same name yield identical coordinate mappings.  In this
embedding `get_player_positions` is a total function, so purity and
determinism hold by construction. -/
theorem c8_layout_deterministic (formation_name : String) :
    get_player_positions formation_name = get_player_positions formation_name := rfl

/-- Python `"\n".join(lines)`: empty for no lines, otherwise the lines
separated by single newlines. -/
def join_newline : List String → String
  | [] => ""
  | [s] => s
  | s :: t :: rest => s ++ "\n" ++ join_newline (t :: rest)

/-- The roster serialization lines
`[f"{pos}: {name}" for pos, name in team.items()]` (myapp.py line 47),
in the dict's (insertion) iteration order. -/
def roster_lines (team : List (String × String)) : List String :=
  team.map (fun pn => pn.1 ++ ": " ++ pn.2)

/-- Text of the prompt template before the formation name (myapp.py lines 49-50). -/
def prompt_head : String :=
  "You are a professional football analyst and scout.\nAnalyze this team\x27s tactical profile based on the "

/-- Text of the prompt template between the formation name and the roster
serialization (myapp.py lines 50-52). -/
def prompt_mid : String := " formation.\nTeam Roster:\n"

/-- Text of the prompt template after the roster serialization
(myapp.py lines 53-67). -/
def prompt_tail : String :=
  "\n\nProvide your analysis in the following strict Markdown structure. Do not include any text before the first heading:\n\n## Strengths 💪\n* [Sharp point about a key advantage]\n* ...\n\n## Weaknesses 🚧\n* [Sharp point about a potential liability]\n* ...\n\n## Tactical Suggestions 🧠\n* [Concrete suggestion for the coach]\n* ...\n"

/-- The full f-string prompt of `generate_analysis` (myapp.py lines 49-67). -/
def build_prompt (formation : String) (team : List (String × String)) : String :=
  prompt_head ++ formation ++ prompt_mid ++ join_newline (roster_lines team) ++ prompt_tail

/-- Outcome of the analysis-column logic (myapp.py lines 429-436): either the
validation error shown with `st.error`, or a decision to invoke
`generate_analysis` with the prompt it will build.  The external
text-generation service is invoked exactly on the `callGeneration`
constructor. -/
inductive StepResult where
  | validationError (msg : String)
  | callGeneration (prompt : String)
  deriving DecidableEq, Repr

/-- The roster-validation / dispatch logic of the analysis column
(myapp.py lines 429-436). -/
def analysis_step (selected_formation : String) (formation_rows : List (String × Nat))
    (team : List (String × String)) : StepResult :=
  if filled_count team < required_count formation_rows then
    StepResult.validationError ("Please fill all " ++ toString (required_count formation_rows) ++
      " player slots. Only " ++ toString (filled_count team) ++ " filled.")
  else
    StepResult.callGeneration (build_prompt selected_formation team)

/-- A raised-and-caught Python exception, as `type(e).__name__` and `str(e)`. -/
structure PyError where
  name : String
  msg : String

structure ChatMessage where
  content : String

structure ChatChoice where
  message : ChatMessage

/-- The chat-completion response payload, as far as `generate_analysis`
inspects it: its list of choices. -/
structure ChatResponse where
  choices : List ChatChoice

/-- The single request `generate_analysis` issues to
`client.chat.completions.create` (myapp.py lines 75-80). -/
structure ChatRequest where
  model : String
  prompt : String
  temperature : ℚ
  timeout : Nat

/-- The concrete request built from the prompt:
model `anthropic/claude-3-haiku:beta`, temperature 0.6, timeout 20. -/
def mk_request (formation : String) (team : List (String × String)) : ChatRequest :=
  ⟨"anthropic/claude-3-haiku:beta", build_prompt formation team, 6 / 10, 20⟩

/-- The caught-exception result string
`f"ERROR: LLM Analysis failed: {type(e).__name__}: {str(e)}"` (myapp.py line 84). -/
def error_text (e : PyError) : String :=
  "ERROR: LLM Analysis failed: " ++ e.name ++ ": " ++ e.msg

/-- `generate_analysis` (myapp.py lines 45-84), with the external service as
an oracle `llm`.  Returns the result string together with the list of
requests issued (the source issues exactly one, with no retry).  `llm`
returning `Except.error` models any exception from the client call
(network error, timeout, malformed response); an `ok` response with no
choices models the `IndexError` that `response.choices[0]` raises, which the
same handler catches. -/
def generate_analysis (llm : ChatRequest → Except PyError ChatResponse)
    (formation : String) (team : List (String × String)) : String × List ChatRequest :=
  match llm (mk_request formation team) with
  | Except.error e => (error_text e, [mk_request formation team])
  | Except.ok resp =>
    match resp.choices with
    | [] => (error_text ⟨"IndexError", "list index out of range"⟩, [mk_request formation team])
    | c :: _ => (c.message.content, [mk_request formation team])

/-- `sub` occurs as a contiguous substring of `s`. -/
def occurs_in (sub s : String) : Prop :=
  ∃ a b : List Char, s.data = a ++ (sub.data ++ b)

theorem occurs_in_self (s : String) : occurs_in s s := ⟨[], [], by simp⟩

theorem occurs_in_append_left {sub s : String} (t : String) (h : occurs_in sub s) :
    occurs_in sub (s ++ t) := by
  obtain ⟨a, b, hab⟩ := h
  exact ⟨a, b ++ t.data, by simp [String.data_append, hab, List.append_assoc]⟩

theorem occurs_in_append_right {sub t : String} (s : String) (h : occurs_in sub t) :
    occurs_in sub (s ++ t) := by
  obtain ⟨a, b, hab⟩ := h
  exact ⟨s.data ++ a, b, by simp [String.data_append, hab, List.append_assoc]⟩

/-- Each member line occurs in the newline-join of the lines. -/
theorem occurs_in_join {l : String} : ∀ (lines : List String), l ∈ lines →
    occurs_in l (join_newline lines)
  | [], h => absurd h (List.not_mem_nil l)
  | [s], h => by
      have hs : l = s := by simpa using h
      subst hs
      exact occurs_in_self l
  | s :: t :: rest, h => by
      rcases List.mem_cons.mp h with h1 | h2
      · subst h1
        show occurs_in l ((l ++ "\n") ++ join_newline (t :: rest))
        exact occurs_in_append_left _ (occurs_in_append_left _ (occurs_in_self l))
      · show occurs_in l ((s ++ "\n") ++ join_newline (t :: rest))
        exact occurs_in_append_right _ (occurs_in_join (t :: rest) h2)

/-- Modelled from the spec: the body of `get_player_image_url` is absent from
src/myapp.py (only its call site at line 406 is present).  Per §6 of the
spec: a full-text search keyed by `"{name} footballer"` takes the top hit
title, then a page-image lookup for that title; a thumbnail URL if found,
otherwise the fixed default image URL; any transport error also yields the
default image URL.  The two endpoints are oracles returning `Except`; the
second component counts network calls issued. -/
def get_player_image_url
    (search_api : String → Except PyError (List String))
    (image_api : String → Except PyError (Option String))
    (name : String) : String × Nat :=
  match search_api (name ++ " footballer") with
  | Except.error _ => (DEFAULT_IMAGE, 1)
  | Except.ok [] => (DEFAULT_IMAGE, 1)
  | Except.ok (title :: _) =>
    match image_api title with
    | Except.error _ => (DEFAULT_IMAGE, 2)
    | Except.ok none => (DEFAULT_IMAGE, 2)
    | Except.ok (some url) => (url, 2)

/-- The marker image choice at the pitch rendering (myapp.py line 406):
`get_player_image_url(player_name) if player_name else DEFAULT_IMAGE`.
An empty name short-circuits to the default image with zero network calls. -/
def marker_image_url
    (search_api : String → Except PyError (List String))
    (image_api : String → Except PyError (Option String))
    (player_name : String) : String × Nat :=
  if player_name ≠ "" then get_player_image_url search_api image_api player_name
  else (DEFAULT_IMAGE, 0)

/-- The 4-3-3 row list, as stored in `FORMATIONS`. -/
def rows433 : List (String × Nat) := [("GK", 1), ("DEF", 4), ("MID", 3), ("ATT", 3)]

/-- A complete 4-3-3 session roster: all 11 slots non-empty. -/
def team433 : List (String × String) :=
  [("GK1", "Alisson"), ("DEF1", "Trent"), ("DEF2", "Konate"), ("DEF3", "VanDijk"),
   ("DEF4", "Robertson"), ("MID1", "Rice"), ("MID2", "Bellingham"), ("MID3", "Pedri"),
   ("ATT1", "Salah"), ("ATT2", "Haaland"), ("ATT3", "Mbappe")]

/-- A 4-3-3 session roster with only 9 of the 11 slots filled. -/
def team9 : List (String × String) :=
  [("GK1", "Alisson"), ("DEF1", "Trent"), ("DEF2", "Konate"), ("DEF3", "VanDijk"),
   ("DEF4", "Robertson"), ("MID1", "Rice"), ("MID2", "Bellingham"), ("MID3", "Pedri"),
   ("ATT1", "Salah"), ("ATT2", ""), ("ATT3", "")]

/-- A session roster after switching from 3-5-2 to 4-3-3: the stale 3-5-2
entries MID4 and MID5 remain non-empty, while the current slot ATT3 is
empty. -/
def stale_team : List (String × String) :=
  [("GK1", "Alisson"), ("DEF1", "Trent"), ("DEF2", "Konate"), ("DEF3", "VanDijk"),
   ("MID1", "Rice"), ("MID2", "Bellingham"), ("MID3", "Pedri"),
   ("MID4", "Valverde"), ("MID5", "Wirtz"),
   ("ATT1", "Salah"), ("ATT2", "Haaland"),
   ("DEF4", "Robertson"), ("ATT3", "")]

/-- An oracle that always reports a timeout exception. -/
def timeoutLLM : ChatRequest → Except PyError ChatResponse :=
  fun _ => Except.error ⟨"APITimeoutError", "Request timed out"⟩

/-- An oracle that always returns one choice with a fixed Markdown payload. -/
def okLLM : ChatRequest → Except PyError ChatResponse :=
  fun _ => Except.ok ⟨[⟨⟨"## Strengths\nSolid spine."⟩⟩]⟩

/-- A search oracle that always fails with a connection error. -/
def failSearch : String → Except PyError (List String) :=
  fun _ => Except.error ⟨"ConnectionError", "connection refused"⟩

/-- An image oracle that always returns a thumbnail. -/
def okImage : String → Except PyError (Option String) :=
  fun _ => Except.ok (some "https://upload.example/thumb.png")

/-- C1: whenever the filled count is strictly below the required count, the
analysis column returns the validation-failure message interpolating both
exact counts, and never reaches the `callGeneration` branch, so the external
text-generation service is not invoked. -/
theorem c1_incomplete_roster_short_circuits (f : String) (rows : List (String × Nat))
    (team : List (String × String))
    (h : filled_count team < required_count rows) :
    analysis_step f rows team =
      StepResult.validationError ("Please fill all " ++ toString (required_count rows) ++
        " player slots. Only " ++ toString (filled_count team) ++ " filled.") ∧
    ∀ p, analysis_step f rows team ≠ StepResult.callGeneration p := by
  refine ⟨by simp [analysis_step, h], ?_⟩
  intro p hp
  simp [analysis_step, h] at hp

/-- C1 witness: 4-3-3 requires 11, a roster with 9 filled yields the message
naming 11 and 9 and no generation call. -/
theorem c1_witness :
    filled_count team9 < required_count rows433 ∧
    analysis_step "4-3-3" rows433 team9 =
      StepResult.validationError "Please fill all 11 player slots. Only 9 filled." ∧
    ∀ p, analysis_step "4-3-3" rows433 team9 ≠ StepResult.callGeneration p := by
  have h := c1_incomplete_roster_short_circuits "4-3-3" rows433 team9 (by decide)
  have hmsg : ("Please fill all " ++ toString (required_count rows433) ++
      " player slots. Only " ++ toString (filled_count team9) ++ " filled.") =
      "Please fill all 11 player slots. Only 9 filled." := by decide
  exact ⟨by decide, hmsg ▸ h.1, h.2⟩

/-- C2: every failure of the text-generation call is normalized to the
failure string carrying the generation-failed marker and the underlying
error description: an exception from the client produces
`ERROR: LLM Analysis failed: {type}: {message}`, and a malformed response
with no choices produces the corresponding IndexError string.  Both branches
return normally, so nothing is raised past the boundary (the embedding is a
total function). -/
theorem c2_generation_failure_normalized
    (llm : ChatRequest → Except PyError ChatResponse) (f : String)
    (team : List (String × String)) :
    (∀ e, llm (mk_request f team) = Except.error e →
      (generate_analysis llm f team).1 =
        "ERROR: LLM Analysis failed: " ++ e.name ++ ": " ++ e.msg) ∧
    (∀ resp, llm (mk_request f team) = Except.ok resp → resp.choices = [] →
      (generate_analysis llm f team).1 =
        "ERROR: LLM Analysis failed: " ++ "IndexError" ++ ": " ++ "list index out of range") := by
  constructor
  · intro e he
    simp [generate_analysis, he, error_text]
  · intro resp hr hc
    simp [generate_analysis, hr, hc, error_text]

/-- C2 witness: a timeout from the collaborator yields the failure string
containing the timeout indicator. -/
theorem c2_witness :
    (generate_analysis timeoutLLM "4-3-3" team433).1 =
      "ERROR: LLM Analysis failed: " ++ "APITimeoutError" ++ ": " ++ "Request timed out" :=
  (c2_generation_failure_normalized timeoutLLM "4-3-3" team433).1
    ⟨"APITimeoutError", "Request timed out"⟩ rfl

/-- C4: for a complete roster (filled = required) the analysis column
dispatches generation with the built prompt; that prompt is the fixed
template around the formation name and the newline-joined roster
serialization (one line per slot, in iteration order), it contains the
formation identifier, and it contains the line `{slot}: {name}` for every
roster entry. -/
theorem c4_prompt_contents (f : String) (rows : List (String × Nat))
    (team : List (String × String))
    (h : filled_count team = required_count rows) :
    analysis_step f rows team = StepResult.callGeneration (build_prompt f team) ∧
    build_prompt f team =
      prompt_head ++ f ++ prompt_mid ++ join_newline (roster_lines team) ++ prompt_tail ∧
    occurs_in f (build_prompt f team) ∧
    ∀ pn ∈ team, occurs_in (pn.1 ++ ": " ++ pn.2) (build_prompt f team) := by
  refine ⟨by simp [analysis_step, h], rfl, ?_, ?_⟩
  · show occurs_in f
      ((((prompt_head ++ f) ++ prompt_mid) ++ join_newline (roster_lines team)) ++ prompt_tail)
    exact occurs_in_append_left _ (occurs_in_append_left _ (occurs_in_append_left _
      (occurs_in_append_right _ (occurs_in_self f))))
  · intro pn hpn
    have hline : (pn.1 ++ ": " ++ pn.2) ∈ roster_lines team :=
      List.mem_map_of_mem (fun q => q.1 ++ ": " ++ q.2) hpn
    show occurs_in (pn.1 ++ ": " ++ pn.2)
      ((((prompt_head ++ f) ++ prompt_mid) ++ join_newline (roster_lines team)) ++ prompt_tail)
    exact occurs_in_append_left _ (occurs_in_append_right _
      (occurs_in_join (roster_lines team) hline))

/-- C4 witness: the complete 4-3-3 roster dispatches generation, and the
prompt contains the formation name and the goalkeeper line. -/
theorem c4_witness :
    filled_count team433 = required_count rows433 ∧
    analysis_step "4-3-3" rows433 team433 =
      StepResult.callGeneration (build_prompt "4-3-3" team433) ∧
    occurs_in "4-3-3" (build_prompt "4-3-3" team433) ∧
    occurs_in ("GK1" ++ ": " ++ "Alisson") (build_prompt "4-3-3" team433) := by
  have h := c4_prompt_contents "4-3-3" rows433 team433 (by decide)
  exact ⟨by decide, h.1, h.2.2.1, h.2.2.2 ("GK1", "Alisson") (by decide)⟩

/-- C5: `generate_analysis` issues exactly one request (no retries), that
request carries temperature 0.6 and timeout 20, and when the oracle returns
a payload with at least one choice the result is that choice's content,
unchanged. -/
theorem c5_single_call_fixed_params
    (llm : ChatRequest → Except PyError ChatResponse) (f : String)
    (team : List (String × String)) :
    (generate_analysis llm f team).2 = [mk_request f team] ∧
    (mk_request f team).temperature = 6 / 10 ∧
    (mk_request f team).timeout = 20 ∧
    (∀ resp c rest, llm (mk_request f team) = Except.ok resp → resp.choices = c :: rest →
      (generate_analysis llm f team).1 = c.message.content) := by
  refine ⟨?_, rfl, rfl, ?_⟩
  · cases hl : llm (mk_request f team) with
    | error e => simp [generate_analysis, hl]
    | ok resp =>
      cases hc : resp.choices with
      | nil => simp [generate_analysis, hl, hc]
      | cons c rest => simp [generate_analysis, hl, hc]
  · intro resp c rest hr hc
    simp [generate_analysis, hr, hc]

/-- C5 witness: with an oracle returning one choice, exactly one request is
issued and the payload is returned unchanged. -/
theorem c5_witness :
    (generate_analysis okLLM "4-3-3" team433).2 = [mk_request "4-3-3" team433] ∧
    (generate_analysis okLLM "4-3-3" team433).1 = "## Strengths\nSolid spine." := by
  have h := c5_single_call_fixed_params okLLM "4-3-3" team433
  exact ⟨h.1, h.2.2.2 ⟨[⟨⟨"## Strengths\nSolid spine."⟩⟩]⟩
    ⟨⟨"## Strengths\nSolid spine."⟩⟩ [] rfl rfl⟩

/-- C9: an empty player name yields the default image with zero network
calls; for a non-empty name, every failure path of the lookup (search
transport error, no search results, image transport error, no thumbnail)
yields the default image URL, never an error. -/
theorem c9_portrait_fallback
    (search_api : String → Except PyError (List String))
    (image_api : String → Except PyError (Option String)) (name : String) :
    (marker_image_url search_api image_api "" = (DEFAULT_IMAGE, 0)) ∧
    (∀ e, search_api (name ++ " footballer") = Except.error e →
      (get_player_image_url search_api image_api name).1 = DEFAULT_IMAGE) ∧
    (search_api (name ++ " footballer") = Except.ok [] →
      (get_player_image_url search_api image_api name).1 = DEFAULT_IMAGE) ∧
    (∀ title rest e, search_api (name ++ " footballer") = Except.ok (title :: rest) →
      image_api title = Except.error e →
      (get_player_image_url search_api image_api name).1 = DEFAULT_IMAGE) ∧
    (∀ title rest, search_api (name ++ " footballer") = Except.ok (title :: rest) →
      image_api title = Except.ok none →
      (get_player_image_url search_api image_api name).1 = DEFAULT_IMAGE) := by
  refine ⟨by simp [marker_image_url], ?_, ?_, ?_, ?_⟩
  · intro e he
    simp [get_player_image_url, he]
  · intro he
    simp [get_player_image_url, he]
  · intro title rest e hs hi
    simp [get_player_image_url, hs, hi]
  · intro title rest hs hi
    simp [get_player_image_url, hs, hi]

/-- C9 witness: empty name gives the default image with zero calls, and a
failing search endpoint gives the default image for a concrete name. -/
theorem c9_witness :
    marker_image_url failSearch okImage "" = (DEFAULT_IMAGE, 0) ∧
    (get_player_image_url failSearch okImage "Salah").1 = DEFAULT_IMAGE := by
  have h := c9_portrait_fallback failSearch okImage "Salah"
  exact ⟨h.1, h.2.1 ⟨"ConnectionError", "connection refused"⟩ rfl⟩

/-- C10: the filled count and the roster serialization range over every
entry of the session roster, stale slots included.  Concretely: after
switching from 3-5-2 to 4-3-3, the roster `stale_team` leaves the current
slot ATT3 empty yet keeps the stale non-empty entries MID4 and MID5, so
validation passes (12 filled ≥ 11 required), generation is dispatched, and
the prompt contains the line for MID5, a slot outside the current
formation. -/
theorem c10_stale_entries_counted :
    ("ATT3" ∈ slot_names rows433) ∧
    (("ATT3", "") ∈ stale_team) ∧
    required_count rows433 = 11 ∧
    filled_count stale_team = 12 ∧
    ¬ (filled_count stale_team < required_count rows433) ∧
    analysis_step "4-3-3" rows433 stale_team =
      StepResult.callGeneration (build_prompt "4-3-3" stale_team) ∧
    ("MID5" ∉ slot_names rows433) ∧
    occurs_in "MID5: Wirtz" (build_prompt "4-3-3" stale_team) := by
  have hnotlt : ¬ (filled_count stale_team < required_count rows433) := by decide
  refine ⟨by decide, by decide, by decide, by decide, hnotlt,
    by simp [analysis_step, hnotlt], by decide, ?_⟩
  have hline : ("MID5" ++ ": " ++ "Wirtz") ∈ roster_lines stale_team := by decide
  have hJ := occurs_in_join (roster_lines stale_team) hline
  have heq : ("MID5" ++ ": " ++ "Wirtz" : String) = "MID5: Wirtz" := by decide
  rw [heq] at hJ
  show occurs_in "MID5: Wirtz"
    ((((prompt_head ++ "4-3-3") ++ prompt_mid) ++ join_newline (roster_lines stale_team)) ++
      prompt_tail)
  exact occurs_in_append_left _ (occurs_in_append_right _ hJ)

end TeamAnalyzer
